import Mathlib

/-!
# Verification of the NXP SNVS ZMK provisioning example (src/zmk/zmk.c)

A shallow embedding of the ZMK programming example.  The memory-mapped SNVS
register window is modelled as a function from byte offsets to 32-bit values
(`Regs`); the register accessor macros of zmk.c become Lean functions over
that state; the body of `main` (after the mmap, which carries no domain
logic) becomes the function `run`, which returns the process exit code, a
symbolic outcome, the final register state, the ordered list of register
writes performed, and the two diagnostic read-back values used by the
procedure.  All register arithmetic is on `Nat`; every register operation is
a bitwise OR of values below 2^32, which cannot overflow, so no explicit
truncation is required.
-/

namespace ZMK

/-- The SNVS register window: byte offset to 32-bit register value.
Mirrors the `mem` pointer returned by mmap in zmk.c. -/
abbrev Regs := Nat → Nat

/-! ## Register offsets and bit masks (zmk.c lines 84-146) -/

def POR : Nat := 0x1000
def SYSTEM_RESET : Nat := 0x2000

def SNVS_HPLR : Nat := 0x0
def ZMK_WSL_MASK : Nat := 0x1
def ZMK_WSL_OFFSET : Nat := 0
def ZMK_RSL_MASK : Nat := 0x2
def ZMK_RSL_OFFSET : Nat := 1
def MKS_SL_MASK : Nat := 0x0200
def MKS_SL_OFFSET : Nat := 9

def SNVS_HPCOMR : Nat := 0x4
def MKS_EN_MASK : Nat := 0x00002000
def MKS_EN_OFFSET : Nat := 13

def SNVS_HPSR : Nat := 0x14
def SSM_ST_MASK : Nat := 0x00000F00
def SSM_ST_OFFSET : Nat := 8

def SNVS_LPLR : Nat := 0x34
def ZMK_WHL_MASK : Nat := 0x1
def ZMK_WHL_OFFSET : Nat := 0
def ZMK_RHL_MASK : Nat := 0x2
def ZMK_RHL_OFFSET : Nat := 1
def MKS_HL_MASK : Nat := 0x200
def MKS_HL_OFFSET : Nat := 9

def SNVS_LPMKCR : Nat := 0x3C
def ZMK_HWP_MASK : Nat := 0x4
def ZMK_HWP_OFFSET : Nat := 2
def ZMK_VAL_MASK : Nat := 0x8
def ZMK_VAL_OFFSET : Nat := 3
def MASTER_KEY_SEL_VALUE : Nat := 0x2
def ZMK_ECC_EN : Nat := 0x10

def SNVS_LPSR : Nat := 0x4c
def PGD_MASK : Nat := 0x8

def SNVS_LPPGDR : Nat := 0x64
def POWER_GLITCH_VALUE : Nat := 0x41736166

def SNVS_LPZMKRn : Nat := 0x6c
def ZMK_VALUE : Nat := 0x11223344

def TIMEOUT_MAX_VAL : Nat := 0x1000

/-! ## Register accessor macros (zmk.c lines 148-150) -/

/-- `get_value_of_SNVS_reg_field(virt_addr, add_offset, field, offset)`:
read a register and extract the masked, shifted bitfield (zmk.c line 148). -/
def get_value_of_SNVS_reg_field (virt_addr : Regs) (add_offset field offset : Nat) : Nat :=
  (virt_addr add_offset &&& field) >>> offset

/-- `get_SNVS_reg(virt_addr, add_offset)`: read one 32-bit register
(zmk.c line 149; dereference of the returned pointer). -/
def get_SNVS_reg (virt_addr : Regs) (add_offset : Nat) : Nat :=
  virt_addr add_offset

/-- `set_value_of_SNVS_reg(virt_addr, add_offset, value)`: read-modify-write
that ORs `value` into the current register content (zmk.c line 150). -/
def set_value_of_SNVS_reg (virt_addr : Regs) (add_offset value : Nat) : Regs :=
  fun o => if o = add_offset then get_SNVS_reg virt_addr add_offset ||| value else virt_addr o

/-! ## Bitfield reads used by main (zmk.c lines 183, 216, 227-233) -/

/-- `SSM_state` (zmk.c line 183): SNVS_HPSR[SSM_ST]. -/
def SSM_state (s : Regs) : Nat :=
  get_value_of_SNVS_reg_field s SNVS_HPSR SSM_ST_MASK SSM_ST_OFFSET

/-- `ZMK_HWP_state` (zmk.c line 216): SNVS_LPMKCR[ZMK_HWP]. -/
def ZMK_HWP_state (s : Regs) : Nat :=
  get_value_of_SNVS_reg_field s SNVS_LPMKCR ZMK_HWP_MASK ZMK_HWP_OFFSET

/-- `ZMK_WSL_state` (zmk.c line 227): SNVS_HPLR[ZMK_WSL]. -/
def ZMK_WSL_state (s : Regs) : Nat :=
  get_value_of_SNVS_reg_field s SNVS_HPLR ZMK_WSL_MASK ZMK_WSL_OFFSET

/-- `ZMK_RSL_state` (zmk.c line 228): SNVS_HPLR[ZMK_RSL]. -/
def ZMK_RSL_state (s : Regs) : Nat :=
  get_value_of_SNVS_reg_field s SNVS_HPLR ZMK_RSL_MASK ZMK_RSL_OFFSET

/-- `MKS_SL_state` (zmk.c line 229): SNVS_HPLR[MKS_SL]. -/
def MKS_SL_state (s : Regs) : Nat :=
  get_value_of_SNVS_reg_field s SNVS_HPLR MKS_SL_MASK MKS_SL_OFFSET

/-- `MKS_HL_state` (zmk.c line 231): SNVS_LPLR[MKS_HL]. -/
def MKS_HL_state (s : Regs) : Nat :=
  get_value_of_SNVS_reg_field s SNVS_LPLR MKS_HL_MASK MKS_HL_OFFSET

/-- `ZMK_RHL_state` (zmk.c line 232): SNVS_LPLR[ZMK_RHL]. -/
def ZMK_RHL_state (s : Regs) : Nat :=
  get_value_of_SNVS_reg_field s SNVS_LPLR ZMK_RHL_MASK ZMK_RHL_OFFSET

/-- `ZMK_WHL_state` (zmk.c line 233): SNVS_LPLR[ZMK_WHL]. -/
def ZMK_WHL_state (s : Regs) : Nat :=
  get_value_of_SNVS_reg_field s SNVS_LPLR ZMK_WHL_MASK ZMK_WHL_OFFSET

/-! ## Path conditions of main -/

/-- The switch on `SSM_state` (zmk.c lines 186-199) continues past A.1 exactly
for the three labelled cases 0xb (non-secure), 0xd (trusted), 0xf (secure). -/
abbrev validSSM (s : Regs) : Prop :=
  SSM_state s = 0xb ∨ SSM_state s = 0xd ∨ SSM_state s = 0xf

/-- The soft-lock check of zmk.c line 235. -/
abbrev softLocksClear (s : Regs) : Prop :=
  ZMK_WSL_state s = 0 ∧ ZMK_RSL_state s = 0 ∧ MKS_SL_state s = 0

/-- The hard-lock check of zmk.c line 239. -/
abbrev hardLocksClear (s : Regs) : Prop :=
  ZMK_WHL_state s = 0 ∧ ZMK_RHL_state s = 0 ∧ MKS_HL_state s = 0

/-- SecurityState classification of the SSM_ST field, following the structure
of zmk.c lines 184-199: values below 0xB never reach the switch (undefined /
wrong mode), the three labelled cases map to the three functional states, and
any other value at or above 0xB falls to the switch default (undefined). -/
inductive SecurityState where
  | nonSecure
  | trusted
  | secure
  | undefined
deriving DecidableEq, Repr

/-- Classify an SSM_ST field value per zmk.c lines 184-199. -/
def classifySSM (v : Nat) : SecurityState :=
  if 0xB ≤ v then
    if v = 0xb then .nonSecure
    else if v = 0xd then .trusted
    else if v = 0xf then .secure
    else .undefined
  else .undefined

/-- Terminal result of one provisioning run.  The constructors name the exit
paths of `main`: `wrongMode` is the SSM-below-threshold else branch (line
335), `undefinedMode` the switch default (line 196), the three `lockedOut`
variants the HWP / soft-lock / hard-lock failures (lines 329, 323, 317),
`verifyMismatch` the B.4 read-back failure (line 313), and `success` the full
path, carrying the result of the B.8 zeroize security check (line 286). -/
inductive Outcome where
  | wrongMode
  | undefinedMode
  | lockedOutHWP
  | lockedOutSoft
  | lockedOutHard
  | verifyMismatch
  | success (zeroized : Bool)
deriving DecidableEq, Repr

/-- The three lock-failure exits of main. -/
def Outcome.isLockedOut : Outcome → Bool
  | .lockedOutHWP => true
  | .lockedOutSoft => true
  | .lockedOutHard => true
  | _ => false

/-- The reset class selected by the `RESET` macro (zmk.c line 88):
`RESET == POR` selects the hard-lock branches, otherwise the soft-lock
branches.  zmk.c fixes `RESET` to `POR`; both branches are in the source. -/
inductive ResetPolicy where
  | por
  | systemReset
deriving DecidableEq, Repr

/-- Compile-time configuration of zmk.c.  `reset_policy` is the `RESET`
macro (line 88), `key_value` is `ZMK_VALUE` (line 136), `spin_count` is
`TIMEOUT_MAX_VAL` (line 281).

`ecc_enable` is modelled from the spec: the spec lists `ecc_enable: bool`
among the recognized configuration options, but the source has no
corresponding macro or flag — the B.6 write of `ZMK_ECC_EN` (zmk.c line 264)
is unconditional.  The field is carried here so that claims about it can be
stated; `run` ignores it, exactly as the code does. -/
structure Config where
  reset_policy : ResetPolicy
  key_value : Nat
  spin_count : Nat
  ecc_enable : Bool

/-- The configuration actually compiled into zmk.c. -/
def defaultConfig : Config :=
  { reset_policy := .por, key_value := ZMK_VALUE,
    spin_count := TIMEOUT_MAX_VAL, ecc_enable := true }

/-- The glitch-conditioning writes A.2 and A.3 (zmk.c lines 204, 210):
OR the calibration constant into SNVS_LPPGDR, then OR the PGD
write-1-to-clear bit into SNVS_LPSR. -/
def glitched (s : Regs) : Regs :=
  set_value_of_SNVS_reg (set_value_of_SNVS_reg s SNVS_LPPGDR POWER_GLITCH_VALUE)
    SNVS_LPSR PGD_MASK

/-- The post-lock busy wait (zmk.c lines 281-283): `for (i=0; i<n; i++){}`.
The body is empty; the function returns the (unchanged) register state
together with the number of iterations performed. -/
def spin : Nat → Regs → Regs × Nat
  | 0, s => (s, 0)
  | n + 1, s =>
    let p := spin n s
    (p.1, p.2 + 1)

/-- Result of one provisioning run: the value returned by `main` (`exit`),
the symbolic outcome, the final register window, the ordered list of
`set_value_of_SNVS_reg` writes performed as (offset, value) pairs, the B.4
read-back of the key register (`keyReadback`, `none` if B.4 was not
reached), and the post-spin read of the key register used by the B.8
security check (`postSpinKey`, `none` if not reached). -/
structure RunResult where
  exit : Int
  outcome : Outcome
  regs : Regs
  writes : List (Nat × Nat)
  keyReadback : Option Nat
  postSpinKey : Option Nat

/-- The ZMK provisioning procedure: the body of `main` (zmk.c lines
181-340), from the A.1 SSM check to the final return, with console output
and the mmap plumbing elided.  Control flow, register reads and writes and
their order follow the source line by line. -/
def run (cfg : Config) (s0 : Regs) : RunResult :=
  -- A.1 (lines 183-199)
  if 0xB ≤ SSM_state s0 then
    if validSSM s0 then
      -- A.2, A.3 (lines 204, 210)
      let s2 := glitched s0
      -- B.1 (lines 216-217)
      if ZMK_HWP_state s2 = 0 then
        -- B.2 (lines 227-239)
        if softLocksClear s2 then
          if hardLocksClear s2 then
            -- B.3 (line 250)
            let s3 := set_value_of_SNVS_reg s2 SNVS_LPZMKRn cfg.key_value
            -- B.4 (line 253)
            let readback := get_SNVS_reg s3 SNVS_LPZMKRn
            if readback = cfg.key_value then
              -- B.5 (line 259)
              let s4 := set_value_of_SNVS_reg s3 SNVS_LPMKCR ZMK_VAL_MASK
              -- B.6 (line 264): unconditional in the source
              let s5 := set_value_of_SNVS_reg s4 SNVS_LPMKCR ZMK_ECC_EN
              -- B.7, B.8 (lines 269-278)
              let s6 :=
                match cfg.reset_policy with
                | .por =>
                  set_value_of_SNVS_reg
                    (set_value_of_SNVS_reg s5 SNVS_LPLR ZMK_RHL_MASK) SNVS_LPLR ZMK_WHL_MASK
                | .systemReset =>
                  set_value_of_SNVS_reg
                    (set_value_of_SNVS_reg s5 SNVS_HPLR ZMK_RSL_MASK) SNVS_HPLR ZMK_WSL_MASK
              -- busy wait (lines 281-283)
              let s7 := (spin cfg.spin_count s6).1
              -- zeroize security check (lines 285-291)
              let post := get_SNVS_reg s7 SNVS_LPZMKRn
              -- B.9 (lines 295, 299)
              let s8 := set_value_of_SNVS_reg s7 SNVS_LPMKCR MASTER_KEY_SEL_VALUE
              let s9 := set_value_of_SNVS_reg s8 SNVS_HPCOMR MKS_EN_MASK
              -- B.10 (lines 304-311)
              let s10 :=
                match cfg.reset_policy with
                | .por => set_value_of_SNVS_reg s9 SNVS_LPLR MKS_HL_MASK
                | .systemReset => set_value_of_SNVS_reg s9 SNVS_HPLR MKS_SL_MASK
              -- line 340
              { exit := 0, outcome := .success (post == 0), regs := s10,
                writes :=
                  [(SNVS_LPPGDR, POWER_GLITCH_VALUE), (SNVS_LPSR, PGD_MASK),
                   (SNVS_LPZMKRn, cfg.key_value), (SNVS_LPMKCR, ZMK_VAL_MASK),
                   (SNVS_LPMKCR, ZMK_ECC_EN)] ++
                  (match cfg.reset_policy with
                   | .por => [(SNVS_LPLR, ZMK_RHL_MASK), (SNVS_LPLR, ZMK_WHL_MASK)]
                   | .systemReset => [(SNVS_HPLR, ZMK_RSL_MASK), (SNVS_HPLR, ZMK_WSL_MASK)]) ++
                  [(SNVS_LPMKCR, MASTER_KEY_SEL_VALUE), (SNVS_HPCOMR, MKS_EN_MASK)] ++
                  (match cfg.reset_policy with
                   | .por => [(SNVS_LPLR, MKS_HL_MASK)]
                   | .systemReset => [(SNVS_HPLR, MKS_SL_MASK)]),
                keyReadback := some readback, postSpinKey := some post }
            else
              -- B.4 mismatch (lines 313-315): prints the error, then falls
              -- through to the final `return 0` of line 340.
              { exit := 0, outcome := .verifyMismatch, regs := s3,
                writes := [(SNVS_LPPGDR, POWER_GLITCH_VALUE), (SNVS_LPSR, PGD_MASK),
                           (SNVS_LPZMKRn, cfg.key_value)],
                keyReadback := some readback, postSpinKey := none }
          else
            -- hard lock set (lines 317-321)
            { exit := -1, outcome := .lockedOutHard, regs := s2,
              writes := [(SNVS_LPPGDR, POWER_GLITCH_VALUE), (SNVS_LPSR, PGD_MASK)],
              keyReadback := none, postSpinKey := none }
        else
          -- soft lock set (lines 323-327)
          { exit := -1, outcome := .lockedOutSoft, regs := s2,
            writes := [(SNVS_LPPGDR, POWER_GLITCH_VALUE), (SNVS_LPSR, PGD_MASK)],
            keyReadback := none, postSpinKey := none }
      else
        -- ZMK_HWP set (lines 329-333)
        { exit := -1, outcome := .lockedOutHWP, regs := s2,
          writes := [(SNVS_LPPGDR, POWER_GLITCH_VALUE), (SNVS_LPSR, PGD_MASK)],
          keyReadback := none, postSpinKey := none }
    else
      -- switch default (lines 196-198)
      { exit := -1, outcome := .undefinedMode, regs := s0, writes := [],
        keyReadback := none, postSpinKey := none }
  else
    -- SSM below threshold (lines 335-338)
    { exit := -1, outcome := .wrongMode, regs := s0, writes := [],
      keyReadback := none, postSpinKey := none }

/-! ## Concrete register-window states used as test inputs -/

/-- All registers zero: SSM_ST = 0 (below threshold). -/
def sAllZero : Regs := fun _ => 0

/-- Trusted mode (SSM_ST = 0xD), every other register zero: the clean
provisioning scenario. -/
def sTrusted : Regs := fun o => if o = SNVS_HPSR then 0xD00 else 0

/-- Non-secure mode (SSM_ST = 0xB) with a stale bit 0 already set in the key
register; every lock clear. -/
def sKeyDirty : Regs :=
  fun o => if o = SNVS_HPSR then 0xB00 else if o = SNVS_LPZMKRn then 0x1 else 0

/-- SSM_ST = 0xC: at or above the 0xB threshold but not one of the three
labelled functional states. -/
def sSSMundef : Regs := fun o => if o = SNVS_HPSR then 0xC00 else 0

/-- Non-secure mode with the ZMK_HWP (hardware programming) bit set. -/
def sHWP : Regs :=
  fun o => if o = SNVS_HPSR then 0xB00 else if o = SNVS_LPMKCR then ZMK_HWP_MASK else 0

/-- Default configuration with `ecc_enable` forced off. -/
def cfgNoEcc : Config :=
  { reset_policy := .por, key_value := ZMK_VALUE,
    spin_count := TIMEOUT_MAX_VAL, ecc_enable := false }

/-- Default configuration with a short busy wait, for concrete evaluation of
the complete success path. -/
def cfgFastSpin : Config :=
  { reset_policy := .por, key_value := ZMK_VALUE, spin_count := 2, ecc_enable := true }

/-- The writes performed before any failure past A.1: the two glitch
conditioning writes. -/
def glitchWrites : List (Nat × Nat) :=
  [(SNVS_LPPGDR, POWER_GLITCH_VALUE), (SNVS_LPSR, PGD_MASK)]

/-- The complete ordered write list of a successful run. -/
def successWrites (cfg : Config) : List (Nat × Nat) :=
  [(SNVS_LPPGDR, POWER_GLITCH_VALUE), (SNVS_LPSR, PGD_MASK),
   (SNVS_LPZMKRn, cfg.key_value), (SNVS_LPMKCR, ZMK_VAL_MASK),
   (SNVS_LPMKCR, ZMK_ECC_EN)] ++
  (match cfg.reset_policy with
   | .por => [(SNVS_LPLR, ZMK_RHL_MASK), (SNVS_LPLR, ZMK_WHL_MASK)]
   | .systemReset => [(SNVS_HPLR, ZMK_RSL_MASK), (SNVS_HPLR, ZMK_WSL_MASK)]) ++
  [(SNVS_LPMKCR, MASTER_KEY_SEL_VALUE), (SNVS_HPCOMR, MKS_EN_MASK)] ++
  (match cfg.reset_policy with
   | .por => [(SNVS_LPLR, MKS_HL_MASK)]
   | .systemReset => [(SNVS_HPLR, MKS_SL_MASK)])

/-- The final register window of a successful run. -/
def successRegs (cfg : Config) (s : Regs) : Regs :=
  let s3 := set_value_of_SNVS_reg (glitched s) SNVS_LPZMKRn cfg.key_value
  let s4 := set_value_of_SNVS_reg s3 SNVS_LPMKCR ZMK_VAL_MASK
  let s5 := set_value_of_SNVS_reg s4 SNVS_LPMKCR ZMK_ECC_EN
  let s6 :=
    match cfg.reset_policy with
    | .por =>
      set_value_of_SNVS_reg
        (set_value_of_SNVS_reg s5 SNVS_LPLR ZMK_RHL_MASK) SNVS_LPLR ZMK_WHL_MASK
    | .systemReset =>
      set_value_of_SNVS_reg
        (set_value_of_SNVS_reg s5 SNVS_HPLR ZMK_RSL_MASK) SNVS_HPLR ZMK_WSL_MASK
  let s8 := set_value_of_SNVS_reg s6 SNVS_LPMKCR MASTER_KEY_SEL_VALUE
  let s9 := set_value_of_SNVS_reg s8 SNVS_HPCOMR MKS_EN_MASK
  match cfg.reset_policy with
  | .por => set_value_of_SNVS_reg s9 SNVS_LPLR MKS_HL_MASK
  | .systemReset => set_value_of_SNVS_reg s9 SNVS_HPLR MKS_SL_MASK

/-! ## Basic lemmas about the register accessors -/

lemma set_apply (s : Regs) (off v o : Nat) :
    set_value_of_SNVS_reg s off v o = if o = off then s off ||| v else s o := rfl

lemma set_apply_ne (s : Regs) (off v o : Nat) (h : o ≠ off) :
    set_value_of_SNVS_reg s off v o = s o := by
  rw [set_apply, if_neg h]

lemma get_set_same (s : Regs) (off v : Nat) :
    get_SNVS_reg (set_value_of_SNVS_reg s off v) off = get_SNVS_reg s off ||| v := by
  simp [get_SNVS_reg, set_value_of_SNVS_reg]

lemma get_set_ne (s : Regs) (off v o : Nat) (h : o ≠ off) :
    get_SNVS_reg (set_value_of_SNVS_reg s off v) o = get_SNVS_reg s o := by
  simp [get_SNVS_reg, set_value_of_SNVS_reg, h]

lemma glitched_apply (s : Regs) (o : Nat) (h1 : o ≠ SNVS_LPPGDR) (h2 : o ≠ SNVS_LPSR) :
    glitched s o = s o := by
  simp [glitched, set_value_of_SNVS_reg, get_SNVS_reg, h1, h2]

lemma hplr_glitched (s : Regs) : glitched s SNVS_HPLR = s SNVS_HPLR :=
  glitched_apply s SNVS_HPLR (by decide) (by decide)

lemma lplr_glitched (s : Regs) : glitched s SNVS_LPLR = s SNVS_LPLR :=
  glitched_apply s SNVS_LPLR (by decide) (by decide)

lemma lpmkcr_glitched (s : Regs) : glitched s SNVS_LPMKCR = s SNVS_LPMKCR :=
  glitched_apply s SNVS_LPMKCR (by decide) (by decide)

lemma lpzmkr_glitched (s : Regs) : glitched s SNVS_LPZMKRn = s SNVS_LPZMKRn :=
  glitched_apply s SNVS_LPZMKRn (by decide) (by decide)

lemma hpcomr_glitched (s : Regs) : glitched s SNVS_HPCOMR = s SNVS_HPCOMR :=
  glitched_apply s SNVS_HPCOMR (by decide) (by decide)

lemma ZMK_HWP_state_glitched (s : Regs) : ZMK_HWP_state (glitched s) = ZMK_HWP_state s := by
  unfold ZMK_HWP_state get_value_of_SNVS_reg_field
  rw [lpmkcr_glitched]

lemma ZMK_WSL_state_glitched (s : Regs) : ZMK_WSL_state (glitched s) = ZMK_WSL_state s := by
  unfold ZMK_WSL_state get_value_of_SNVS_reg_field
  rw [hplr_glitched]

lemma ZMK_RSL_state_glitched (s : Regs) : ZMK_RSL_state (glitched s) = ZMK_RSL_state s := by
  unfold ZMK_RSL_state get_value_of_SNVS_reg_field
  rw [hplr_glitched]

lemma MKS_SL_state_glitched (s : Regs) : MKS_SL_state (glitched s) = MKS_SL_state s := by
  unfold MKS_SL_state get_value_of_SNVS_reg_field
  rw [hplr_glitched]

lemma ZMK_WHL_state_glitched (s : Regs) : ZMK_WHL_state (glitched s) = ZMK_WHL_state s := by
  unfold ZMK_WHL_state get_value_of_SNVS_reg_field
  rw [lplr_glitched]

lemma ZMK_RHL_state_glitched (s : Regs) : ZMK_RHL_state (glitched s) = ZMK_RHL_state s := by
  unfold ZMK_RHL_state get_value_of_SNVS_reg_field
  rw [lplr_glitched]

lemma MKS_HL_state_glitched (s : Regs) : MKS_HL_state (glitched s) = MKS_HL_state s := by
  unfold MKS_HL_state get_value_of_SNVS_reg_field
  rw [lplr_glitched]

lemma softLocksClear_glitched (s : Regs) :
    softLocksClear (glitched s) ↔ softLocksClear s := by
  unfold softLocksClear
  rw [ZMK_WSL_state_glitched, ZMK_RSL_state_glitched, MKS_SL_state_glitched]

lemma hardLocksClear_glitched (s : Regs) :
    hardLocksClear (glitched s) ↔ hardLocksClear s := by
  unfold hardLocksClear
  rw [ZMK_WHL_state_glitched, ZMK_RHL_state_glitched, MKS_HL_state_glitched]

lemma validSSM_le (s : Regs) (h : validSSM s) : 0xB ≤ SSM_state s := by
  rcases h with h | h | h <;> rw [h] <;> decide

/-! ## The busy-wait loop -/

lemma spin_eq (n : Nat) (s : Regs) : spin n s = (s, n) := by
  induction n with
  | zero => rfl
  | succ n ih => simp [spin, ih]

lemma spin_fst (n : Nat) (s : Regs) : (spin n s).1 = s := by rw [spin_eq]

/-! ## Branch characterizations of `run` -/

lemma run_wrongMode (cfg : Config) (s : Regs) (h : ¬ 0xB ≤ SSM_state s) :
    run cfg s = ⟨-1, .wrongMode, s, [], none, none⟩ := by
  simp only [run]
  rw [if_neg h]

lemma run_undefinedMode (cfg : Config) (s : Regs)
    (hA : 0xB ≤ SSM_state s) (hB : ¬ validSSM s) :
    run cfg s = ⟨-1, .undefinedMode, s, [], none, none⟩ := by
  simp only [run]
  rw [if_pos hA, if_neg hB]

lemma run_lockedOutHWP (cfg : Config) (s : Regs)
    (hB : validSSM s) (hC : ¬ ZMK_HWP_state (glitched s) = 0) :
    run cfg s = ⟨-1, .lockedOutHWP, glitched s, glitchWrites, none, none⟩ := by
  simp only [run]
  rw [if_pos (validSSM_le s hB), if_pos hB, if_neg hC]
  rfl

lemma run_lockedOutSoft (cfg : Config) (s : Regs)
    (hB : validSSM s) (hC : ZMK_HWP_state (glitched s) = 0)
    (hD : ¬ softLocksClear (glitched s)) :
    run cfg s = ⟨-1, .lockedOutSoft, glitched s, glitchWrites, none, none⟩ := by
  simp only [run]
  rw [if_pos (validSSM_le s hB), if_pos hB, if_pos hC, if_neg hD]
  rfl

lemma run_lockedOutHard (cfg : Config) (s : Regs)
    (hB : validSSM s) (hC : ZMK_HWP_state (glitched s) = 0)
    (hD : softLocksClear (glitched s)) (hE : ¬ hardLocksClear (glitched s)) :
    run cfg s = ⟨-1, .lockedOutHard, glitched s, glitchWrites, none, none⟩ := by
  simp only [run]
  rw [if_pos (validSSM_le s hB), if_pos hB, if_pos hC, if_pos hD, if_neg hE]
  rfl

lemma run_verifyMismatch (cfg : Config) (s : Regs)
    (hB : validSSM s) (hC : ZMK_HWP_state (glitched s) = 0)
    (hD : softLocksClear (glitched s)) (hE : hardLocksClear (glitched s))
    (hF : ¬ get_SNVS_reg (set_value_of_SNVS_reg (glitched s) SNVS_LPZMKRn cfg.key_value)
            SNVS_LPZMKRn = cfg.key_value) :
    run cfg s =
      ⟨0, .verifyMismatch, set_value_of_SNVS_reg (glitched s) SNVS_LPZMKRn cfg.key_value,
       [(SNVS_LPPGDR, POWER_GLITCH_VALUE), (SNVS_LPSR, PGD_MASK),
        (SNVS_LPZMKRn, cfg.key_value)],
       some (get_SNVS_reg (set_value_of_SNVS_reg (glitched s) SNVS_LPZMKRn cfg.key_value)
              SNVS_LPZMKRn), none⟩ := by
  simp only [run]
  rw [if_pos (validSSM_le s hB), if_pos hB, if_pos hC, if_pos hD, if_pos hE, if_neg hF]

lemma run_success (cfg : Config) (s : Regs)
    (hB : validSSM s) (hC : ZMK_HWP_state (glitched s) = 0)
    (hD : softLocksClear (glitched s)) (hE : hardLocksClear (glitched s))
    (hF : get_SNVS_reg (set_value_of_SNVS_reg (glitched s) SNVS_LPZMKRn cfg.key_value)
            SNVS_LPZMKRn = cfg.key_value) :
    run cfg s =
      ⟨0, .success (cfg.key_value == 0), successRegs cfg s, successWrites cfg,
       some cfg.key_value, some cfg.key_value⟩ := by
  have hpost :
      get_SNVS_reg
        (match cfg.reset_policy with
         | .por =>
           set_value_of_SNVS_reg
             (set_value_of_SNVS_reg
               (set_value_of_SNVS_reg
                 (set_value_of_SNVS_reg
                   (set_value_of_SNVS_reg (glitched s) SNVS_LPZMKRn cfg.key_value)
                   SNVS_LPMKCR ZMK_VAL_MASK)
                 SNVS_LPMKCR ZMK_ECC_EN)
               SNVS_LPLR ZMK_RHL_MASK) SNVS_LPLR ZMK_WHL_MASK
         | .systemReset =>
           set_value_of_SNVS_reg
             (set_value_of_SNVS_reg
               (set_value_of_SNVS_reg
                 (set_value_of_SNVS_reg
                   (set_value_of_SNVS_reg (glitched s) SNVS_LPZMKRn cfg.key_value)
                   SNVS_LPMKCR ZMK_VAL_MASK)
                 SNVS_LPMKCR ZMK_ECC_EN)
               SNVS_HPLR ZMK_RSL_MASK) SNVS_HPLR ZMK_WSL_MASK)
        SNVS_LPZMKRn = cfg.key_value := by
    rcases cfg.reset_policy <;>
      simp only [] <;>
      rw [get_set_ne _ _ _ _ (by decide), get_set_ne _ _ _ _ (by decide),
        get_set_ne _ _ _ _ (by decide), get_set_ne _ _ _ _ (by decide)] <;>
      exact hF
  simp only [run, spin_fst]
  rw [if_pos (validSSM_le s hB), if_pos hB, if_pos hC, if_pos hD, if_pos hE, if_pos hF,
    hF, hpost]
  simp only [successRegs, successWrites]

/-- Exactly one of the seven exit paths of `main` applies, with the stated
path condition and result. -/
lemma run_cases (cfg : Config) (s : Regs) :
    (¬ 0xB ≤ SSM_state s ∧ run cfg s = ⟨-1, .wrongMode, s, [], none, none⟩) ∨
    (0xB ≤ SSM_state s ∧ ¬ validSSM s ∧
      run cfg s = ⟨-1, .undefinedMode, s, [], none, none⟩) ∨
    (validSSM s ∧ ¬ ZMK_HWP_state (glitched s) = 0 ∧
      run cfg s = ⟨-1, .lockedOutHWP, glitched s, glitchWrites, none, none⟩) ∨
    (validSSM s ∧ ZMK_HWP_state (glitched s) = 0 ∧ ¬ softLocksClear (glitched s) ∧
      run cfg s = ⟨-1, .lockedOutSoft, glitched s, glitchWrites, none, none⟩) ∨
    (validSSM s ∧ ZMK_HWP_state (glitched s) = 0 ∧ softLocksClear (glitched s) ∧
      ¬ hardLocksClear (glitched s) ∧
      run cfg s = ⟨-1, .lockedOutHard, glitched s, glitchWrites, none, none⟩) ∨
    (validSSM s ∧ ZMK_HWP_state (glitched s) = 0 ∧ softLocksClear (glitched s) ∧
      hardLocksClear (glitched s) ∧
      ¬ get_SNVS_reg (set_value_of_SNVS_reg (glitched s) SNVS_LPZMKRn cfg.key_value)
          SNVS_LPZMKRn = cfg.key_value ∧
      run cfg s =
        ⟨0, .verifyMismatch,
         set_value_of_SNVS_reg (glitched s) SNVS_LPZMKRn cfg.key_value,
         [(SNVS_LPPGDR, POWER_GLITCH_VALUE), (SNVS_LPSR, PGD_MASK),
          (SNVS_LPZMKRn, cfg.key_value)],
         some (get_SNVS_reg (set_value_of_SNVS_reg (glitched s) SNVS_LPZMKRn cfg.key_value)
                SNVS_LPZMKRn), none⟩) ∨
    (validSSM s ∧ ZMK_HWP_state (glitched s) = 0 ∧ softLocksClear (glitched s) ∧
      hardLocksClear (glitched s) ∧
      get_SNVS_reg (set_value_of_SNVS_reg (glitched s) SNVS_LPZMKRn cfg.key_value)
          SNVS_LPZMKRn = cfg.key_value ∧
      run cfg s =
        ⟨0, .success (cfg.key_value == 0), successRegs cfg s, successWrites cfg,
         some cfg.key_value, some cfg.key_value⟩) := by
  by_cases hA : 0xB ≤ SSM_state s
  · by_cases hB : validSSM s
    · by_cases hC : ZMK_HWP_state (glitched s) = 0
      · by_cases hD : softLocksClear (glitched s)
        · by_cases hE : hardLocksClear (glitched s)
          · by_cases hF :
              get_SNVS_reg (set_value_of_SNVS_reg (glitched s) SNVS_LPZMKRn cfg.key_value)
                SNVS_LPZMKRn = cfg.key_value
            · exact Or.inr (Or.inr (Or.inr (Or.inr (Or.inr (Or.inr
                ⟨hB, hC, hD, hE, hF, run_success cfg s hB hC hD hE hF⟩)))))
            · exact Or.inr (Or.inr (Or.inr (Or.inr (Or.inr (Or.inl
                ⟨hB, hC, hD, hE, hF, run_verifyMismatch cfg s hB hC hD hE hF⟩)))))
          · exact Or.inr (Or.inr (Or.inr (Or.inr (Or.inl
              ⟨hB, hC, hD, hE, run_lockedOutHard cfg s hB hC hD hE⟩))))
        · exact Or.inr (Or.inr (Or.inr (Or.inl
            ⟨hB, hC, hD, run_lockedOutSoft cfg s hB hC hD⟩)))
      · exact Or.inr (Or.inr (Or.inl ⟨hB, hC, run_lockedOutHWP cfg s hB hC⟩))
    · exact Or.inr (Or.inl ⟨hA, hB, run_undefinedMode cfg s hA hB⟩)
  · exact Or.inl ⟨hA, run_wrongMode cfg s hA⟩

/-! ## Bitwise monotonicity helpers -/

lemma testBit_mono_set (s : Regs) (off v o i : Nat) (h : (s o).testBit i = true) :
    (set_value_of_SNVS_reg s off v o).testBit i = true := by
  rw [set_apply]
  split
  · next heq =>
      rw [heq] at h
      rw [Nat.testBit_lor, h, Bool.true_or]
  · exact h

lemma testBit_mono_glitched (s : Regs) (o i : Nat) (h : (s o).testBit i = true) :
    (glitched s o).testBit i = true := by
  unfold glitched
  exact testBit_mono_set _ _ _ _ _ (testBit_mono_set _ _ _ _ _ h)

lemma testBit_mono_successRegs (cfg : Config) (s : Regs) (o i : Nat)
    (h : (s o).testBit i = true) : (successRegs cfg s o).testBit i = true := by
  simp only [successRegs]
  cases hr : cfg.reset_policy <;>
    simp only [hr] <;>
    repeat
      first
        | exact testBit_mono_glitched s o i h
        | apply testBit_mono_set

/-- If the hardware-programming bit is clear and both lock words are clear in
the post-glitch state, none of HWP and the six latches is set initially. -/
lemma locks_contra (s : Regs)
    (hC : ZMK_HWP_state (glitched s) = 0)
    (hD : softLocksClear (glitched s)) (hE : hardLocksClear (glitched s))
    (h2 : ZMK_HWP_state s ≠ 0 ∨ ZMK_WSL_state s ≠ 0 ∨ ZMK_RSL_state s ≠ 0 ∨
          MKS_SL_state s ≠ 0 ∨ ZMK_WHL_state s ≠ 0 ∨ ZMK_RHL_state s ≠ 0 ∨
          MKS_HL_state s ≠ 0) : False := by
  rw [ZMK_HWP_state_glitched] at hC
  rw [softLocksClear_glitched] at hD
  rw [hardLocksClear_glitched] at hE
  obtain ⟨d1, d2, d3⟩ := hD
  obtain ⟨e1, e2, e3⟩ := hE
  rcases h2 with h | h | h | h | h | h | h
  · exact h hC
  · exact h d1
  · exact h d2
  · exact h d3
  · exact h e1
  · exact h e2
  · exact h e3

/-! ## The claims -/

/-- Claim C1 (code bug): the spec requires a non-zero exit status whenever
the B.4 key write-back verification fails, but `main` only prints an error
in that branch (zmk.c lines 313-315) and then falls through to `return 0`
(line 340).  Evaluated at the failing input `sKeyDirty` (valid security
state, all locks clear, stale bit 0 in the key register, so the OR-write
reads back 0x11223345 ≠ 0x11223344): the outcome is the verify mismatch,
yet the exit status is 0. -/
theorem claim_C1 :
    (run defaultConfig sKeyDirty).keyReadback = some 0x11223345 ∧
    (run defaultConfig sKeyDirty).outcome = .verifyMismatch ∧
    (run defaultConfig sKeyDirty).exit = 0 := by
  refine ⟨by decide, by decide, by decide⟩

/-- Claim C2, counterexample: SSM_ST = 0xC is at or above the 0xB threshold,
yet it is classified undefined (the switch default of zmk.c line 196), the
run fails immediately with a non-zero exit, and the glitch-conditioning step
is never reached (no writes at all) — refuting the claim that every value
at or above the threshold classifies to {NonSecure, Trusted, Secure} and
continues. -/
theorem claim_C2_counterexample :
    0xB ≤ SSM_state sSSMundef ∧
    classifySSM (SSM_state sSSMundef) = .undefined ∧
    (run defaultConfig sSSMundef).outcome = .undefinedMode ∧
    (run defaultConfig sSSMundef).writes = [] ∧
    (run defaultConfig sSSMundef).exit = -1 := by
  refine ⟨by decide, by decide, by decide, by decide, by decide⟩

/-- Claim C2 as amended: only the three labelled values 0xB, 0xD, 0xF
classify to {NonSecure, Trusted, Secure} and continue to the
glitch-conditioning step (the first glitch write is performed); values below
the threshold fail immediately with `WrongMode` and no writes; values at or
above the threshold outside the labelled set are classified undefined and
also fail immediately with a non-zero exit and no writes. -/
theorem claim_C2 (cfg : Config) (s : Regs) :
    (validSSM s → classifySSM (SSM_state s) ≠ .undefined ∧
      (SNVS_LPPGDR, POWER_GLITCH_VALUE) ∈ (run cfg s).writes) ∧
    (SSM_state s < 0xB →
      (run cfg s).outcome = .wrongMode ∧ (run cfg s).writes = []) ∧
    (0xB ≤ SSM_state s → ¬ validSSM s →
      classifySSM (SSM_state s) = .undefined ∧
      (run cfg s).outcome = .undefinedMode ∧ (run cfg s).writes = [] ∧
      (run cfg s).exit ≠ 0) := by
  refine ⟨?_, ?_, ?_⟩
  · intro hB
    constructor
    · rcases hB with h | h | h <;> rw [h] <;> decide
    · rcases run_cases cfg s with ⟨hA, hrun⟩ | ⟨_, hB', hrun⟩ | ⟨_, _, hrun⟩ |
        ⟨_, _, _, hrun⟩ | ⟨_, _, _, _, hrun⟩ | ⟨_, _, _, _, _, hrun⟩ |
        ⟨_, _, _, _, _, hrun⟩
      · exact absurd (validSSM_le s hB) hA
      · exact absurd hB hB'
      · rw [hrun]
        exact (by decide : (SNVS_LPPGDR, POWER_GLITCH_VALUE) ∈ glitchWrites)
      · rw [hrun]
        exact (by decide : (SNVS_LPPGDR, POWER_GLITCH_VALUE) ∈ glitchWrites)
      · rw [hrun]
        exact (by decide : (SNVS_LPPGDR, POWER_GLITCH_VALUE) ∈ glitchWrites)
      · rw [hrun]; exact List.mem_cons_self _ _
      · rw [hrun]; simp [successWrites]
  · intro h
    rw [run_wrongMode cfg s (Nat.not_le.mpr h)]
    exact ⟨rfl, rfl⟩
  · intro hA hB
    rw [run_undefinedMode cfg s hA hB]
    have h1 : SSM_state s ≠ 0xb := fun h => hB (Or.inl h)
    have h2 : SSM_state s ≠ 0xd := fun h => hB (Or.inr (Or.inl h))
    have h3 : SSM_state s ≠ 0xf := fun h => hB (Or.inr (Or.inr h))
    refine ⟨?_, rfl, rfl, (by decide : (-1 : Int) ≠ 0)⟩
    unfold classifySSM
    rw [if_pos hA, if_neg h1, if_neg h2, if_neg h3]

/-- Witness for the amended C2 at the trusted state. -/
theorem claim_C2_witness :
    classifySSM (SSM_state sTrusted) ≠ .undefined ∧
    (SNVS_LPPGDR, POWER_GLITCH_VALUE) ∈ (run defaultConfig sTrusted).writes :=
  (claim_C2 defaultConfig sTrusted).1 (by decide)

/-- Claim C3, counterexample: with a valid SecurityState, HWP clear and all
six latches clear but a stale bit 0 already set in the key register, the
B.3 write (an OR per `set_value_of_SNVS_reg`) reads back 0x11223345, not
the intended 0x11223344 — refuting the round-trip claim for arbitrary
pre-run key-register values. -/
theorem claim_C3_counterexample :
    validSSM sKeyDirty ∧ ZMK_HWP_state sKeyDirty = 0 ∧
    softLocksClear sKeyDirty ∧ hardLocksClear sKeyDirty ∧
    (run defaultConfig sKeyDirty).keyReadback = some 0x11223345 ∧
    ¬ (run defaultConfig sKeyDirty).keyReadback = some ZMK_VALUE := by
  refine ⟨by decide, by decide, by decide, by decide, by decide, by decide⟩

/-- Claim C3 as amended: with a valid SecurityState, HWP clear and all six
latches clear, the read immediately following the key write equals the key
value exactly for pre-run key-register values whose set bits are contained
in the key value (the write ORs into the register), in particular for a
zeroed register. -/
theorem claim_C3 (cfg : Config) (s : Regs)
    (h1 : validSSM s) (h2 : ZMK_HWP_state s = 0)
    (h3 : softLocksClear s) (h4 : hardLocksClear s)
    (h5 : s SNVS_LPZMKRn ||| cfg.key_value = cfg.key_value) :
    (run cfg s).keyReadback = some cfg.key_value := by
  have h2' : ZMK_HWP_state (glitched s) = 0 := by
    rw [ZMK_HWP_state_glitched]; exact h2
  have h3' := (softLocksClear_glitched s).mpr h3
  have h4' := (hardLocksClear_glitched s).mpr h4
  have h5' : get_SNVS_reg (set_value_of_SNVS_reg (glitched s) SNVS_LPZMKRn cfg.key_value)
      SNVS_LPZMKRn = cfg.key_value := by
    rw [get_set_same]
    show glitched s SNVS_LPZMKRn ||| cfg.key_value = cfg.key_value
    rw [lpzmkr_glitched]
    exact h5
  rw [run_success cfg s h1 h2' h3' h4' h5']

/-- Witness for the amended C3: the clean trusted scenario with a zeroed key
register reads back exactly the configured key value. -/
theorem claim_C3_witness :
    (run defaultConfig sTrusted).keyReadback = some defaultConfig.key_value :=
  claim_C3 defaultConfig sTrusted (by decide) (by decide) (by decide) (by decide)
    (by decide)

/-- Claim C4, counterexample: with `ecc_enable = false` in the
configuration, a clean run still writes the ZMK_ECC_EN bit into
SNVS_LPMKCR — the B.6 write of zmk.c line 264 is unconditional and no
`ecc_enable` option exists in the code. -/
theorem claim_C4_counterexample :
    cfgNoEcc.ecc_enable = false ∧
    (SNVS_LPMKCR, ZMK_ECC_EN) ∈ (run cfgNoEcc sTrusted).writes := by
  refine ⟨by decide, by decide⟩

/-- Claim C4 as amended: the code ignores `ecc_enable` entirely — every run
that passes the B.4 write-back verification writes the ZMK_ECC_EN bit into
the master-key control register regardless of the configuration, and every
run that fails earlier performs no write to that register at all. -/
theorem claim_C4 (cfg : Config) (s : Regs) :
    ((run cfg s).keyReadback = some cfg.key_value →
      (SNVS_LPMKCR, ZMK_ECC_EN) ∈ (run cfg s).writes) ∧
    ((run cfg s).keyReadback ≠ some cfg.key_value →
      ∀ v, (SNVS_LPMKCR, v) ∉ (run cfg s).writes) := by
  rcases run_cases cfg s with ⟨_, hrun⟩ | ⟨_, _, hrun⟩ | ⟨_, _, hrun⟩ |
    ⟨_, _, _, hrun⟩ | ⟨_, _, _, _, hrun⟩ | ⟨_, _, _, _, hF, hrun⟩ |
    ⟨_, _, _, _, hF, hrun⟩ <;> rw [hrun]
  · exact ⟨fun h => by simp at h, fun _ v => by simp⟩
  · exact ⟨fun h => by simp at h, fun _ v => by simp⟩
  · exact ⟨fun h => by simp at h, fun _ v => by
      simp [glitchWrites, SNVS_LPMKCR, SNVS_LPPGDR, SNVS_LPSR]⟩
  · exact ⟨fun h => by simp at h, fun _ v => by
      simp [glitchWrites, SNVS_LPMKCR, SNVS_LPPGDR, SNVS_LPSR]⟩
  · exact ⟨fun h => by simp at h, fun _ v => by
      simp [glitchWrites, SNVS_LPMKCR, SNVS_LPPGDR, SNVS_LPSR]⟩
  · constructor
    · intro h
      exact absurd (Option.some.inj h) hF
    · intro _ v
      simp [SNVS_LPMKCR, SNVS_LPPGDR, SNVS_LPSR, SNVS_LPZMKRn]
  · constructor
    · intro _
      simp [successWrites]
    · intro h
      exact absurd rfl h

/-- Witness for the amended C4: the clean trusted run passes verification
and its write trace contains the ECC-enable write. -/
theorem claim_C4_witness :
    (SNVS_LPMKCR, ZMK_ECC_EN) ∈ (run defaultConfig sTrusted).writes :=
  (claim_C4 defaultConfig sTrusted).1 (by decide)

/-- Claim C5 (confirmed): when the security-state field classifies below the
0xB threshold, the run terminates with `WrongMode`, a non-zero exit status,
an empty write trace, and a register window identical to the pre-run one. -/
theorem claim_C5 (cfg : Config) (s : Regs) (h : SSM_state s < 0xB) :
    (run cfg s).outcome = .wrongMode ∧ (run cfg s).exit ≠ 0 ∧
    (run cfg s).writes = [] ∧ (run cfg s).regs = s := by
  rw [run_wrongMode cfg s (Nat.not_le.mpr h)]
  exact ⟨rfl, (by decide : (-1 : Int) ≠ 0), rfl, rfl⟩

/-- Witness for C5 at the all-zero window (SSM_ST = 0). -/
theorem claim_C5_witness :
    (run defaultConfig sAllZero).outcome = .wrongMode ∧
    (run defaultConfig sAllZero).exit ≠ 0 ∧
    (run defaultConfig sAllZero).writes = [] ∧
    (run defaultConfig sAllZero).regs = sAllZero :=
  claim_C5 defaultConfig sAllZero (by decide)

/-- Claim C6 (confirmed): with a valid SecurityState, if the ZMK_HWP bit or
any of the six lock latches is set in the initial window, the run terminates
locked out with a non-zero exit, the write trace contains no write to the
key register, and the key register keeps its pre-run value. -/
theorem claim_C6 (cfg : Config) (s : Regs) (h1 : validSSM s)
    (h2 : ZMK_HWP_state s ≠ 0 ∨ ZMK_WSL_state s ≠ 0 ∨ ZMK_RSL_state s ≠ 0 ∨
          MKS_SL_state s ≠ 0 ∨ ZMK_WHL_state s ≠ 0 ∨ ZMK_RHL_state s ≠ 0 ∨
          MKS_HL_state s ≠ 0) :
    (run cfg s).outcome.isLockedOut = true ∧ (run cfg s).exit ≠ 0 ∧
    (∀ v, (SNVS_LPZMKRn, v) ∉ (run cfg s).writes) ∧
    (run cfg s).regs SNVS_LPZMKRn = s SNVS_LPZMKRn := by
  rcases run_cases cfg s with ⟨hA, hrun⟩ | ⟨_, hB', hrun⟩ | ⟨_, _, hrun⟩ |
    ⟨_, hC, _, hrun⟩ | ⟨_, hC, hD, _, hrun⟩ | ⟨_, hC, hD, hE, _, hrun⟩ |
    ⟨_, hC, hD, hE, _, hrun⟩
  · exact absurd (validSSM_le s h1) hA
  · exact absurd h1 hB'
  · rw [hrun]
    refine ⟨rfl, (by decide : (-1 : Int) ≠ 0), ?_, lpzmkr_glitched s⟩
    intro v
    simp [glitchWrites, SNVS_LPZMKRn, SNVS_LPPGDR, SNVS_LPSR]
  · rw [hrun]
    refine ⟨rfl, (by decide : (-1 : Int) ≠ 0), ?_, lpzmkr_glitched s⟩
    intro v
    simp [glitchWrites, SNVS_LPZMKRn, SNVS_LPPGDR, SNVS_LPSR]
  · rw [hrun]
    refine ⟨rfl, (by decide : (-1 : Int) ≠ 0), ?_, lpzmkr_glitched s⟩
    intro v
    simp [glitchWrites, SNVS_LPZMKRn, SNVS_LPPGDR, SNVS_LPSR]
  · exact (locks_contra s hC hD hE h2).elim
  · exact (locks_contra s hC hD hE h2).elim

/-- Witness for C6: hardware-programming mode set in an otherwise clean
non-secure window. -/
theorem claim_C6_witness :
    (run defaultConfig sHWP).outcome.isLockedOut = true ∧
    (run defaultConfig sHWP).regs SNVS_LPZMKRn = sHWP SNVS_LPZMKRn :=
  ⟨(claim_C6 defaultConfig sHWP (by decide) (Or.inl (by decide))).1,
   (claim_C6 defaultConfig sHWP (by decide) (Or.inl (by decide))).2.2.2⟩

/-- Claim C7 (confirmed): on every run whose outcome is the B.4 verify
mismatch, neither the HP lock register, the LP lock register, the HP command
register nor the master-key control register is ever written: the trace
contains no write to any of them and each of them retains its pre-run value
(which is also its value at the moment of the failed verification, since
only the glitch registers and the key register were written before it). -/
theorem claim_C7 (cfg : Config) (s : Regs)
    (h : (run cfg s).outcome = .verifyMismatch) :
    (∀ v, (SNVS_HPLR, v) ∉ (run cfg s).writes) ∧
    (∀ v, (SNVS_LPLR, v) ∉ (run cfg s).writes) ∧
    (∀ v, (SNVS_HPCOMR, v) ∉ (run cfg s).writes) ∧
    (∀ v, (SNVS_LPMKCR, v) ∉ (run cfg s).writes) ∧
    (run cfg s).regs SNVS_HPLR = s SNVS_HPLR ∧
    (run cfg s).regs SNVS_LPLR = s SNVS_LPLR ∧
    (run cfg s).regs SNVS_HPCOMR = s SNVS_HPCOMR ∧
    (run cfg s).regs SNVS_LPMKCR = s SNVS_LPMKCR := by
  rcases run_cases cfg s with ⟨_, hrun⟩ | ⟨_, _, hrun⟩ | ⟨_, _, hrun⟩ |
    ⟨_, _, _, hrun⟩ | ⟨_, _, _, _, hrun⟩ | ⟨_, _, _, _, hF, hrun⟩ |
    ⟨_, _, _, _, hF, hrun⟩ <;> rw [hrun] at h ⊢
  · simp at h
  · simp at h
  · simp at h
  · simp at h
  · simp at h
  · refine ⟨?_, ?_, ?_, ?_, ?_, ?_, ?_, ?_⟩
    · intro v
      simp [SNVS_HPLR, SNVS_LPPGDR, SNVS_LPSR, SNVS_LPZMKRn]
    · intro v
      simp [SNVS_LPLR, SNVS_LPPGDR, SNVS_LPSR, SNVS_LPZMKRn]
    · intro v
      simp [SNVS_HPCOMR, SNVS_LPPGDR, SNVS_LPSR, SNVS_LPZMKRn]
    · intro v
      simp [SNVS_LPMKCR, SNVS_LPPGDR, SNVS_LPSR, SNVS_LPZMKRn]
    · show set_value_of_SNVS_reg (glitched s) SNVS_LPZMKRn cfg.key_value SNVS_HPLR =
        s SNVS_HPLR
      rw [set_apply_ne _ _ _ _ (by decide), hplr_glitched]
    · show set_value_of_SNVS_reg (glitched s) SNVS_LPZMKRn cfg.key_value SNVS_LPLR =
        s SNVS_LPLR
      rw [set_apply_ne _ _ _ _ (by decide), lplr_glitched]
    · show set_value_of_SNVS_reg (glitched s) SNVS_LPZMKRn cfg.key_value SNVS_HPCOMR =
        s SNVS_HPCOMR
      rw [set_apply_ne _ _ _ _ (by decide), hpcomr_glitched]
    · show set_value_of_SNVS_reg (glitched s) SNVS_LPZMKRn cfg.key_value SNVS_LPMKCR =
        s SNVS_LPMKCR
      rw [set_apply_ne _ _ _ _ (by decide), lpmkcr_glitched]
  · simp at h

/-- Witness for C7 at the dirty-key mismatch run. -/
theorem claim_C7_witness :
    (run defaultConfig sKeyDirty).regs SNVS_HPLR = sKeyDirty SNVS_HPLR ∧
    (run defaultConfig sKeyDirty).regs SNVS_LPMKCR = sKeyDirty SNVS_LPMKCR :=
  ⟨(claim_C7 defaultConfig sKeyDirty (by decide)).2.2.2.2.1,
   (claim_C7 defaultConfig sKeyDirty (by decide)).2.2.2.2.2.2.2⟩

/-- Claim C8 (confirmed): every register write is the OR of the previous
register content with the written bits and touches no other offset, and
consequently register contents are bitwise monotone non-decreasing across a
whole run: any bit set in the initial window is still set in the final
window of `run`, at every offset. -/
theorem claim_C8 (cfg : Config) (s : Regs) (off v : Nat) :
    set_value_of_SNVS_reg s off v off = s off ||| v ∧
    (∀ o, o ≠ off → set_value_of_SNVS_reg s off v o = s o) ∧
    (∀ o i, (s o).testBit i = true → ((run cfg s).regs o).testBit i = true) := by
  refine ⟨by rw [set_apply, if_pos rfl], fun o ho => set_apply_ne s off v o ho, ?_⟩
  intro o i h
  rcases run_cases cfg s with ⟨_, hrun⟩ | ⟨_, _, hrun⟩ | ⟨_, _, hrun⟩ |
    ⟨_, _, _, hrun⟩ | ⟨_, _, _, _, hrun⟩ | ⟨_, _, _, _, _, hrun⟩ |
    ⟨_, _, _, _, _, hrun⟩ <;> rw [hrun]
  · exact h
  · exact h
  · exact testBit_mono_glitched s o i h
  · exact testBit_mono_glitched s o i h
  · exact testBit_mono_glitched s o i h
  · exact testBit_mono_set _ _ _ _ _ (testBit_mono_glitched s o i h)
  · exact testBit_mono_successRegs cfg s o i h

/-- Witness for C8: a concrete OR-write, frame at another offset, and a
run-level monotone bit. -/
theorem claim_C8_witness :
    set_value_of_SNVS_reg sTrusted SNVS_HPLR 0x1 SNVS_HPLR = sTrusted SNVS_HPLR ||| 0x1 ∧
    set_value_of_SNVS_reg sTrusted SNVS_HPLR 0x1 SNVS_HPSR = sTrusted SNVS_HPSR ∧
    ((run defaultConfig sKeyDirty).regs SNVS_LPZMKRn).testBit 0 = true :=
  ⟨(claim_C8 defaultConfig sTrusted SNVS_HPLR 0x1).1,
   (claim_C8 defaultConfig sTrusted SNVS_HPLR 0x1).2.1 SNVS_HPSR (by decide),
   (claim_C8 defaultConfig sKeyDirty SNVS_HPLR 0x1).2.2 SNVS_LPZMKRn 0 (by decide)⟩

/-- Claim C9 (confirmed): on every run that passes the B.4 verification, if
the key register still reads non-zero after the busy wait, the zeroize
security check records a failure (advisory `success false`), yet the run
still performs the master-key selection writes — the 0b10 selection code,
the MKS_EN enable bit, and the selector lock matching the reset policy —
and exits with status 0. -/
theorem claim_C9 (cfg : Config) (s : Regs) (k : Nat)
    (_h1 : (run cfg s).keyReadback = some cfg.key_value)
    (h2 : (run cfg s).postSpinKey = some k) (h3 : k ≠ 0) :
    (run cfg s).outcome = .success false ∧ (run cfg s).exit = 0 ∧
    (SNVS_LPMKCR, MASTER_KEY_SEL_VALUE) ∈ (run cfg s).writes ∧
    (SNVS_HPCOMR, MKS_EN_MASK) ∈ (run cfg s).writes ∧
    (cfg.reset_policy = .por → (SNVS_LPLR, MKS_HL_MASK) ∈ (run cfg s).writes) ∧
    (cfg.reset_policy = .systemReset →
      (SNVS_HPLR, MKS_SL_MASK) ∈ (run cfg s).writes) := by
  rcases run_cases cfg s with ⟨_, hrun⟩ | ⟨_, _, hrun⟩ | ⟨_, _, hrun⟩ |
    ⟨_, _, _, hrun⟩ | ⟨_, _, _, _, hrun⟩ | ⟨_, _, _, _, _, hrun⟩ |
    ⟨_, _, _, _, _, hrun⟩ <;> rw [hrun] at h2 ⊢
  · exact absurd h2 (by simp)
  · exact absurd h2 (by simp)
  · exact absurd h2 (by simp)
  · exact absurd h2 (by simp)
  · exact absurd h2 (by simp)
  · exact absurd h2 (by simp)
  · have hk : cfg.key_value = k := Option.some.inj h2
    have hz : (cfg.key_value == 0) = false := by
      rw [hk]
      exact beq_eq_false_iff_ne.mpr h3
    refine ⟨?_, rfl, ?_, ?_, ?_, ?_⟩
    · show Outcome.success (cfg.key_value == 0) = Outcome.success false
      rw [hz]
    · simp [successWrites]
    · simp [successWrites]
    · intro hp
      simp [successWrites, hp]
    · intro hp
      simp [successWrites, hp]

/-- Witness for C9: the clean trusted scenario with a short spin; the key
register (modelled memory, no hardware zeroization) still holds the key
after the wait, the advisory failure is recorded, and the selection writes
happen with exit 0. -/
theorem claim_C9_witness :
    (run cfgFastSpin sTrusted).outcome = .success false ∧
    (run cfgFastSpin sTrusted).exit = 0 ∧
    (SNVS_LPMKCR, MASTER_KEY_SEL_VALUE) ∈ (run cfgFastSpin sTrusted).writes :=
  ⟨(claim_C9 cfgFastSpin sTrusted ZMK_VALUE (by decide) (by decide) (by decide)).1,
   (claim_C9 cfgFastSpin sTrusted ZMK_VALUE (by decide) (by decide) (by decide)).2.1,
   (claim_C9 cfgFastSpin sTrusted ZMK_VALUE (by decide) (by decide) (by decide)).2.2.1⟩

/-- Claim C10 (confirmed): the post-lock busy wait of zmk.c lines 281-283 is
a pure counted loop: started on any register window it terminates after
exactly TIMEOUT_MAX_VAL = 0x1000 iterations and returns the window
unchanged. -/
theorem claim_C10 (s : Regs) : spin TIMEOUT_MAX_VAL s = (s, TIMEOUT_MAX_VAL) :=
  spin_eq TIMEOUT_MAX_VAL s

end ZMK
